import Mathlib

/-!
Verification of the OAuth2 authorization-code + PKCE flow implemented in
`src/flytekit/clients/auth/auth_client.py`.

The Python module is shallowly embedded: pure helpers become Lean functions,
the stateful client becomes explicit state passing, the network becomes an
oracle `respond : TokenRequest → HttpResponse` together with an explicit trace
of the requests issued, and Python exceptions become `Except AuthError`.
-/

namespace FlytekitAuth

/-! ## PKCE generator (`_generate_code_verifier`, lines 29-42) -/

/-- The url-safe base64 alphabet used by `base64.urlsafe_b64encode`:
`A-Z`, `a-z`, `0-9`, `-`, `_` (padding is the separate char `=`). -/
def b64urlChars : List Char :=
  ['A','B','C','D','E','F','G','H','I','J','K','L','M','N','O','P','Q','R','S',
   'T','U','V','W','X','Y','Z','a','b','c','d','e','f','g','h','i','j','k','l',
   'm','n','o','p','q','r','s','t','u','v','w','x','y','z','0','1','2','3','4',
   '5','6','7','8','9','-','_']

/-- The alphabet character for a 6-bit value. -/
def b64char (n : Nat) : Char :=
  match b64urlChars[n]? with
  | some c => c
  | none => 'A'

/-- `base64.urlsafe_b64encode` on a byte list (bytes as `Nat`, taken mod 256 by
the 6-bit arithmetic), including the `=` padding. -/
def b64encode : List Nat → List Char
  | [] => []
  | [b1] =>
      [b64char (b1 % 256 / 4), b64char (b1 % 4 * 16), '=', '=']
  | [b1, b2] =>
      [b64char (b1 % 256 / 4), b64char (b1 % 4 * 16 + b2 % 256 / 16),
       b64char (b2 % 16 * 4), '=']
  | b1 :: b2 :: b3 :: rest =>
      b64char (b1 % 256 / 4) :: b64char (b1 % 4 * 16 + b2 % 256 / 16) ::
      b64char (b2 % 16 * 4 + b3 % 256 / 64) :: b64char (b3 % 64) ::
      b64encode rest

/-- The character class kept by the regex substitution
`re.sub(r"[^a-zA-Z0-9_\-.~]+", "", code_verifier)` (line 37). -/
def isVerifierChar (c : Char) : Bool :=
  c.isAlphanum || c = '_' || c = '-' || c = '.' || c = '~'

/-- Errors raised by the module; each constructor names the Python exception
site it embeds. -/
inductive AuthError where
  /-- line 39: `ValueError("Verifier too short...")` -/
  | verifierTooShort
  /-- line 41: `ValueError("Verifier too long...")` -/
  | verifierTooLong
  /-- line 280: `ValueError` on unexpected `state` in the callback -/
  | stateMismatch (got : String)
  /-- lines 296-301: `Exception` on a non-200 token-endpoint response -/
  | tokenExchangeFailed (status : Nat)
  /-- line 269: `ValueError` when the 200 body lacks `access_token` -/
  | malformedTokenResponse
  /-- line 276: Python `UnboundLocalError` -- the local `expires_in` is only
  assigned when the key is present (line 272-273) yet is read unconditionally
  when constructing the `Credentials` -/
  | unboundLocalExpiresIn
  /-- line 333: `ValueError` when no refresh token is available -/
  | noRefreshToken
  /-- line 349: `AccessTokenNotFoundError` on a non-200 refresh response -/
  | accessTokenNotFound (status : Nat)
deriving DecidableEq, Repr

/-- `_generate_code_verifier` (lines 29-42), with the draw of
`os.urandom(64)` made an explicit argument: url-safe-base64 encode, strip
characters outside the verifier class, reject lengths outside [43,128]. -/
def generateCodeVerifier (randomBytes : List Nat) : Except AuthError String :=
  let code_verifier := (b64encode randomBytes).filter isVerifierChar
  if code_verifier.length < 43 then .error .verifierTooShort
  else if 128 < code_verifier.length then .error .verifierTooLong
  else .ok (String.mk code_verifier)

/-! ## Data model -/

/-- `AuthorizationCode` (lines 63-74). -/
structure AuthorizationCode where
  code : String
  state : String
deriving DecidableEq, Repr

/-- Modelled from the spec: the `Credentials` record the module imports from
its keyring collaborator (not under `src/`):
`access_token: string, refresh_token: string?, expires_in_seconds: int?,
for_endpoint: string`. -/
structure Credentials where
  access_token : String
  refresh_token : Option String
  for_endpoint : String
  expires_in : Option Int
deriving DecidableEq, Repr

/-- The parsed JSON body of a token-endpoint response; each field is `none`
when the corresponding key is absent. -/
structure TokenBody where
  access_token : Option String
  refresh_token : Option String
  expires_in : Option Int
deriving DecidableEq, Repr

/-- A token-endpoint HTTP response: status code and parsed JSON body. -/
structure HttpResponse where
  status : Nat
  body : TokenBody
deriving DecidableEq, Repr

/-! ## Python dict and str helpers

`self._params` is a Python dict with string keys and values that may be `None`
(`client_id`, `redirect_uri`). It is embedded as an insertion-ordered
association list; `dictSet` replaces in place when the key exists and appends
otherwise, exactly the semantics of `dict.update` key by key. -/

/-- Dict lookup: first (and by the `dictSet` discipline, only) binding. -/
def dictGet (d : List (String × Option String)) (k : String) :
    Option (Option String) :=
  (d.find? (fun p => p.1 == k)).map (fun p => p.2)

/-- Dict write: replace in place if the key exists, append otherwise. -/
def dictSet (d : List (String × Option String)) (k : String) (v : Option String) :
    List (String × Option String) :=
  if d.any (fun p => p.1 == k) then
    d.map (fun p => if p.1 == k then (k, v) else p)
  else d ++ [(k, v)]

/-- `dict.update(kvs)`: `dictSet` for each pair in order. -/
def dictUpdate (d kvs : List (String × Option String)) :
    List (String × Option String) :=
  kvs.foldl (fun acc p => dictSet acc p.1 p.2) d

/-- Python `str.strip(chars)`: drop leading and trailing characters that are
in `chars`. -/
def stripChars (chars : List Char) (s : String) : String :=
  String.mk (((s.data.dropWhile (chars.contains ·)).reverse.dropWhile
    (chars.contains ·)).reverse)

/-- The scope string of line 227-229:
`" ".join(s.strip("' ") for s in scopes).strip("[]'")`. -/
def scopeString (scopes : List String) : String :=
  stripChars ['[', ']', '\'']
    (String.intercalate " " (scopes.map (stripChars ['\'', ' '])))

/-! ## `AuthorizationClient` state -/

/-- The instance fields of `AuthorizationClient` relevant to the claims
(lines 205-235). `code_verifier` and `state` stand for the values the PKCE
generator produced at construction. -/
structure AuthorizationClient where
  endpoint : String
  auth_endpoint : String
  token_endpoint : String
  client_id : Option String
  scopes : List String
  redirect_uri : Option String
  code_verifier : String
  code_challenge : String
  state : String
  params : List (String × Option String)
deriving DecidableEq, Repr

/-- `self._headers` (line 222). -/
def clientHeaders : List (String × String) :=
  [("content-type", "application/x-www-form-urlencoded")]

/-- The `self._params` dict literal built by `__init__` (lines 224-235). -/
def initParams (client_id : Option String) (scopes : List String)
    (redirect_uri : Option String) (state code_challenge : String) :
    List (String × Option String) :=
  [("client_id", client_id),
   ("response_type", some "code"),
   ("scope", some (scopeString scopes)),
   ("redirect_uri", redirect_uri),
   ("state", some state),
   ("code_challenge", some code_challenge),
   ("code_challenge_method", some "S256")]

/-- A `requests.post` call to the token endpoint, as issued by the client. -/
structure TokenRequest where
  url : String
  data : List (String × Option String)
  headers : List (String × String)
  allow_redirects : Bool
deriving DecidableEq, Repr

/-- The authorization URL of `_request_authorization_code` (lines 250-255)
before `urlencode`: base endpoint plus the query parameter pairs
(`query = urlencode(self._params)`, line 252). -/
structure AuthUrl where
  base : String
  query : List (String × Option String)
deriving DecidableEq, Repr

/-- `_request_authorization_code` (lines 250-255): builds the authorization
URL from `self._auth_endpoint` and `self._params` and opens the browser
(fire-and-forget; the URL is the observable effect). -/
def requestAuthorizationCode (c : AuthorizationClient) : AuthUrl :=
  { base := c.auth_endpoint, query := c.params }

/-- `_credentials_from_response` (lines 257-276). The Python local
`expires_in` is assigned only when the key is present (lines 272-273) but is
read unconditionally at line 276; the absent case is therefore an
`UnboundLocalError`, embedded as `.error .unboundLocalExpiresIn`. -/
def credentialsFromResponse (endpoint : String) (auth_token_resp : HttpResponse) :
    Except AuthError Credentials :=
  let response_body := auth_token_resp.body
  match response_body.access_token with
  | none => .error .malformedTokenResponse
  | some access_token =>
      let refresh_token := response_body.refresh_token
      match response_body.expires_in with
      | none => .error .unboundLocalExpiresIn
      | some expires_in =>
          .ok { access_token := access_token
                refresh_token := refresh_token
                for_endpoint := endpoint
                expires_in := some expires_in }

/-- `_request_access_token` (lines 278-302). The network is an oracle
`respond`; the returned list is the trace of POSTs actually issued, and the
returned client carries the in-place `self._params.update` of lines 281-287. -/
def requestAccessToken (c : AuthorizationClient) (auth_code : AuthorizationCode)
    (respond : TokenRequest → HttpResponse) :
    Except AuthError Credentials × List TokenRequest × AuthorizationClient :=
  if c.state ≠ auth_code.state then
    (.error (.stateMismatch auth_code.state), [], c)
  else
    let params := dictUpdate c.params
      [("code", some auth_code.code),
       ("code_verifier", some c.code_verifier),
       ("grant_type", some "authorization_code")]
    let c := { c with params := params }
    let req : TokenRequest :=
      { url := c.token_endpoint, data := params, headers := clientHeaders,
        allow_redirects := false }
    let resp := respond req
    if resp.status ≠ 200 then
      (.error (.tokenExchangeFailed resp.status), [req], c)
    else
      (credentialsFromResponse c.endpoint resp, [req], c)

/-- `get_creds_from_remote` (lines 304-329) after the callback listener has
delivered `auth_code` through the queue (`auth_code = q.get()`, line 326):
the flow continues with `self._request_access_token(auth_code)` (line 327). -/
def getCredsFromRemote (c : AuthorizationClient) (auth_code : AuthorizationCode)
    (respond : TokenRequest → HttpResponse) :
    Except AuthError Credentials × List TokenRequest × AuthorizationClient :=
  requestAccessToken c auth_code respond

/-- `refresh_access_token` (lines 331-351); the returned list is the trace of
POSTs issued. -/
def refreshAccessToken (c : AuthorizationClient) (credentials : Credentials)
    (respond : TokenRequest → HttpResponse) :
    Except AuthError Credentials × List TokenRequest :=
  match credentials.refresh_token with
  | none => (.error .noRefreshToken, [])
  | some rt =>
      let req : TokenRequest :=
        { url := c.token_endpoint,
          data := [("grant_type", some "refresh_token"),
                   ("client_id", c.client_id),
                   ("refresh_token", some rt)],
          headers := clientHeaders, allow_redirects := false }
      let resp := respond req
      if resp.status ≠ 200 then
        (.error (.accessTokenNotFound resp.status), [req])
      else
        (credentialsFromResponse c.endpoint resp, [req])

/-! ## Callback listener (`OAuthCallbackHandler`, `OAuthHTTPServer`)

`get_creds_from_remote` runs `server.handle_request` as the target of the
background process (line 316); `BaseHTTPServer.handle_request` processes a
single inbound request and returns, after which the listener process exits.
The listener is embedded as a step on a server state plus the run over the
inbound requests of one flow attempt. -/

/-- An inbound HTTP GET to the loopback listener: the URL path and the parsed
query pairs. -/
structure HttpReq where
  path : String
  query : List (String × String)
deriving DecidableEq, Repr

/-- `dict(urlparse.parse_qsl(...))[k]` (line 100, 108): on duplicate keys the
dict keeps the last occurrence. -/
def queryGet (q : List (String × String)) (k : String) : Option String :=
  (q.reverse.find? (fun p => p.1 == k)).map (fun p => p.2)

/-- The observable state of one `OAuthHTTPServer`: the contents of the
handoff queue (`self._queue.put`, line 141) and whether `server_close`
(line 142) has run. -/
structure ServerSt where
  queue : List AuthorizationCode
  closed : Bool
deriving DecidableEq, Repr

/-- Fresh server state at the start of a flow attempt. -/
def serverInit : ServerSt := { queue := [], closed := false }

/-- `OAuthCallbackHandler.do_GET` (lines 94-108) on one inbound request:
on a path match (after stripping `/` from both sides, line 96) respond 200
and run `handle_login` → `handle_authorization_code`, which puts the
`AuthorizationCode` on the queue and closes the server (lines 140-142);
otherwise respond 404 and leave the state unchanged. A path-matching request
whose query lacks `code` or `state` hits a `KeyError` in `handle_login`
(line 108) after the 200 status line was sent: no queue write, no close. -/
def doGET (redirectPath : String) (st : ServerSt) (req : HttpReq) :
    ServerSt × Nat :=
  if stripChars ['/'] req.path = stripChars ['/'] redirectPath then
    match queryGet req.query "code", queryGet req.query "state" with
    | some code, some state =>
        ({ queue := st.queue ++ [{ code := code, state := state }],
           closed := true }, 200)
    | _, _ => (st, 200)
  else (st, 404)

/-- The listener process of one flow attempt over the inbound requests in
arrival order: `handle_request` serves exactly the first request, then the
process exits, so every later request goes unanswered (`none`). -/
def listenerRun (redirectPath : String) (reqs : List HttpReq) :
    ServerSt × List (Option Nat) :=
  match reqs with
  | [] => (serverInit, [])
  | r :: rest =>
      let (st, status) := doGET redirectPath serverInit r
      (st, some status :: rest.map (fun _ => none))

/-! ## Endpoint registry (`_SingletonPerEndpoint`, lines 149-168) -/

/-- The metaclass registry `_instances`: the construction key mapped to the
id of the instance created for it, plus the id for the next fresh instance.
Two constructions return the identical Python object exactly when they
return the same id. -/
structure RegistryState where
  instances : List (String × Nat)
  nextId : Nat
deriving DecidableEq, Repr

/-- Empty registry at process start. -/
def registryInit : RegistryState := { instances := [], nextId := 0 }

/-- `ValueError("parameter auth_endpoint is required")` (line 163). -/
inductive SingletonErr where
  | authEndpointRequired
deriving DecidableEq, Repr

/-- The construction key of `_SingletonPerEndpoint.__call__` (lines 156-163):
the FIRST positional argument when any is given — which in
`AuthorizationClient.__init__`'s signature (line 177-187) is the `endpoint`
parameter, not `auth_endpoint` — else the `auth_endpoint` keyword, else an
error. -/
def singletonKey (posArgs : List String) (kwAuthEndpoint : Option String) :
    Except SingletonErr String :=
  match posArgs with
  | a :: _ => .ok a
  | [] =>
      match kwAuthEndpoint with
      | some e => .ok e
      | none => .error .authEndpointRequired

/-- One construction request `AuthorizationClient(*posArgs, **kwargs)`
resolved through the registry (lines 156-168): an existing instance for the
key is returned as is; otherwise a fresh instance id is allocated and
recorded. -/
def singletonCall (st : RegistryState) (posArgs : List String)
    (kwAuthEndpoint : Option String) :
    RegistryState × Except SingletonErr Nat :=
  match singletonKey posArgs kwAuthEndpoint with
  | .error e => (st, .error e)
  | .ok key =>
      match (st.instances.find? (fun p => p.1 == key)).map (fun p => p.2) with
      | some id => (st, .ok id)
      | none =>
          ({ instances := st.instances ++ [(key, st.nextId)],
             nextId := st.nextId + 1 }, .ok st.nextId)

/-! ## Helper lemmas -/

lemma mem_b64urlChars_kept : ∀ c ∈ b64urlChars, isVerifierChar c = true := by
  decide

lemma b64char_kept (n : Nat) : isVerifierChar (b64char n) = true := by
  unfold b64char
  cases h : b64urlChars[n]? with
  | none => decide
  | some c =>
      have hc : c ∈ b64urlChars := by
        obtain ⟨hn, he⟩ := List.getElem?_eq_some.mp h
        exact he ▸ List.getElem_mem hn
      exact mem_b64urlChars_kept c hc

lemma pad_not_kept : isVerifierChar '=' = false := by decide

/-- Length of the cleaned url-safe base64 encoding: four characters per full
3-byte group, plus 2 for a trailing byte or 3 for a trailing pair (the `=`
padding is exactly what the regex removes). -/
lemma b64encode_filter_length (bs : List Nat) :
    ((b64encode bs).filter isVerifierChar).length =
      bs.length / 3 * 4 +
        (if bs.length % 3 = 0 then 0 else if bs.length % 3 = 1 then 2 else 3) := by
  induction bs using b64encode.induct with
  | case1 => simp [b64encode]
  | case2 b1 => simp [b64encode, List.filter, b64char_kept, pad_not_kept]
  | case3 b1 b2 => simp [b64encode, List.filter, b64char_kept, pad_not_kept]
  | case4 b1 b2 b3 rest ih =>
      simp only [b64encode, List.filter, b64char_kept, List.length_cons]
      have h3 : (rest.length + 1 + 1 + 1) % 3 = rest.length % 3 := by omega
      have h4 : (rest.length + 1 + 1 + 1) / 3 = rest.length / 3 + 1 := by omega
      rw [ih]
      simp only [h3, h4]
      omega

lemma replace_pred_eq (k k2 : String) (v : Option String) :
    ((fun p : String × Option String => p.1 == k2) ∘
      (fun p : String × Option String => if p.1 == k then (k, v) else p)) =
      (fun p : String × Option String => p.1 == k2) := by
  funext p
  by_cases hp : (p.1 == k) = true
  · have : p.1 = k := by simpa using hp
    simp [Function.comp, hp, this]
  · simp [Function.comp, hp]

lemma dictGet_dictSet_self (d : List (String × Option String)) (k : String)
    (v : Option String) : dictGet (dictSet d k v) k = some v := by
  unfold dictSet
  by_cases h : d.any (fun p => p.1 == k) = true
  · rw [if_pos h, dictGet, List.find?_map, replace_pred_eq]
    have : (d.find? (fun p => p.1 == k)).isSome := by
      rw [List.find?_isSome]
      simpa [List.any_eq_true] using h
    obtain ⟨p, hp⟩ := Option.isSome_iff_exists.mp this
    have hpk := List.find?_some hp
    have hk : p.1 = k := by simpa using hpk
    simp [hp, hk]
  · rw [if_neg h, dictGet, List.find?_append]
    have hnone : d.find? (fun p => p.1 == k) = none := by
      rw [List.find?_eq_none]
      intro x hx hxk
      exact h (List.any_eq_true.mpr ⟨x, hx, hxk⟩)
    simp [hnone, List.find?]

lemma dictGet_dictSet_other (d : List (String × Option String)) (k k2 : String)
    (v : Option String) (h : (k == k2) = false) :
    dictGet (dictSet d k v) k2 = dictGet d k2 := by
  unfold dictSet
  by_cases ha : d.any (fun p => p.1 == k) = true
  · rw [if_pos ha, dictGet, List.find?_map, replace_pred_eq]
    cases hd : d.find? (fun p => p.1 == k2) with
    | none => simp [dictGet, hd]
    | some p =>
        have hpk2 : (p.1 == k2) = true := by
          have := List.find?_some hd
          simpa using this
        have hpk : (p.1 == k) = false := by
          rcases Bool.eq_false_or_eq_true (p.1 == k) with ht | hf
          · have h1 : p.1 = k := by simpa using ht
            have h2 : p.1 = k2 := by simpa using hpk2
            rw [h1] at h2
            simp [h2] at h
          · exact hf
        have hk : ¬ p.1 = k := by simpa using hpk
        simp [dictGet, hd, hk]
  · rw [if_neg ha, dictGet, List.find?_append]
    cases hd : d.find? (fun p => p.1 == k2) with
    | some p => simp [dictGet, hd]
    | none => simp [dictGet, hd, List.find?, h]

/-- Lookups into the params dict after the `update` of lines 281-287: the
three token-grant entries are present with the values just written. -/
lemma dictGet_updatedParams (d : List (String × Option String)) (cv vv : String) :
    dictGet (dictUpdate d [("code", some cv), ("code_verifier", some vv),
        ("grant_type", some "authorization_code")]) "code" = some (some cv) ∧
    dictGet (dictUpdate d [("code", some cv), ("code_verifier", some vv),
        ("grant_type", some "authorization_code")]) "code_verifier"
      = some (some vv) ∧
    dictGet (dictUpdate d [("code", some cv), ("code_verifier", some vv),
        ("grant_type", some "authorization_code")]) "grant_type"
      = some (some "authorization_code") := by
  simp only [dictUpdate, List.foldl]
  refine ⟨?_, ?_, ?_⟩
  · rw [dictGet_dictSet_other _ _ _ _ (by decide),
      dictGet_dictSet_other _ _ _ _ (by decide), dictGet_dictSet_self]
  · rw [dictGet_dictSet_other _ _ _ _ (by decide), dictGet_dictSet_self]
  · rw [dictGet_dictSet_self]

/-! ## Concrete instances used by the closed evaluations and witnesses -/

/-- A concrete client: the state token is `"S1"`, the params dict is exactly
the one `__init__` builds. -/
def cEx : AuthorizationClient :=
  { endpoint := "dns:///flyte.example.com"
    auth_endpoint := "https://auth.example.com/oauth2/authorize"
    token_endpoint := "https://auth.example.com/oauth2/token"
    client_id := some "client-id"
    scopes := ["all"]
    redirect_uri := some "http://localhost:53593/callback"
    code_verifier := "pkce-verifier"
    code_challenge := "pkce-challenge"
    state := "S1"
    params := initParams (some "client-id") ["all"]
      (some "http://localhost:53593/callback") "S1" "pkce-challenge" }

/-- A 200 token-endpoint response whose body contains only `access_token`. -/
def respTokOnly : HttpResponse :=
  { status := 200,
    body := { access_token := some "tok", refresh_token := none,
              expires_in := none } }

/-! ## Claims -/

/-- C1: the claim says a 200 token-endpoint response whose body contains
`access_token` yields a `Credentials` value, with `expires_in` simply absent
when the server omits it — in particular `200 {"access_token":"tok"}` yields
`Credentials(access_token = "tok", refresh_token = null)`. The code instead
reads the local `expires_in` unconditionally at line 276 though lines 272-273
assign it only when the key is present: on exactly the body documented in the
function's own docstring (lines 259-264, which has no `expires_in`) the
exchange raises `UnboundLocalError` and returns no `Credentials`. -/
theorem C1_exchange_200_token_only_hits_unbound_local :
    (requestAccessToken cEx { code := "XYZ", state := "S1" }
        (fun _ => respTokOnly)).1
      = .error .unboundLocalExpiresIn := by
  rfl

/-- C3: for every delivered callback whose `state` differs from the client's
stored state token, the exchange step of `get_creds_from_remote` fails with
the state-mismatch error, the POST trace is empty (the token endpoint is
never reached), and the client is left unchanged. -/
theorem C3_state_mismatch_no_post (c : AuthorizationClient)
    (auth_code : AuthorizationCode) (respond : TokenRequest → HttpResponse)
    (h : auth_code.state ≠ c.state) :
    getCredsFromRemote c auth_code respond
      = (.error (.stateMismatch auth_code.state), [], c) := by
  unfold getCredsFromRemote requestAccessToken
  rw [if_pos (fun hc => h hc.symm)]

/-- C3 witness: a concrete callback carrying state `"S2"` against the client
whose stored state is `"S1"`. -/
theorem C3_state_mismatch_no_post_witness :
    ("S2" : String) ≠ "S1" ∧
    getCredsFromRemote cEx { code := "XYZ", state := "S2" }
        (fun _ => respTokOnly)
      = (.error (.stateMismatch "S2"), [], cEx) :=
  ⟨by decide, C3_state_mismatch_no_post cEx { code := "XYZ", state := "S2" }
    (fun _ => respTokOnly) (by decide)⟩

/-- C4: for every delivered callback whose `state` equals the client's stored
state token, `get_creds_from_remote` proceeds to the token exchange: exactly
one POST is issued, to the token endpoint, whose form data carries
`grant_type=authorization_code`, exactly the `code` received in the callback,
and the client's stored PKCE code verifier. -/
theorem C4_state_match_posts_code_and_verifier (c : AuthorizationClient)
    (auth_code : AuthorizationCode) (respond : TokenRequest → HttpResponse)
    (h : auth_code.state = c.state) :
    ∃ req : TokenRequest,
      (getCredsFromRemote c auth_code respond).2.1 = [req] ∧
      req.url = c.token_endpoint ∧
      dictGet req.data "code" = some (some auth_code.code) ∧
      dictGet req.data "code_verifier" = some (some c.code_verifier) ∧
      dictGet req.data "grant_type" = some (some "authorization_code") := by
  unfold getCredsFromRemote requestAccessToken
  rw [if_neg (fun hc => hc h.symm)]
  obtain ⟨h1, h2, h3⟩ := dictGet_updatedParams c.params auth_code.code c.code_verifier
  refine ⟨{ url := c.token_endpoint,
            data := dictUpdate c.params
              [("code", some auth_code.code),
               ("code_verifier", some c.code_verifier),
               ("grant_type", some "authorization_code")],
            headers := clientHeaders, allow_redirects := false },
          ?_, rfl, h1, h2, h3⟩
  dsimp only
  split <;> rfl

/-- C4 witness: the callback `code=XYZ, state=S1` against the client whose
stored state is `"S1"`. -/
theorem C4_state_match_posts_code_and_verifier_witness :
    ("S1" : String) = "S1" ∧
    ∃ req : TokenRequest,
      (getCredsFromRemote cEx { code := "XYZ", state := "S1" }
          (fun _ => respTokOnly)).2.1 = [req] ∧
      req.url = cEx.token_endpoint ∧
      dictGet req.data "code" = some (some "XYZ") ∧
      dictGet req.data "code_verifier" = some (some cEx.code_verifier) ∧
      dictGet req.data "grant_type" = some (some "authorization_code") :=
  ⟨rfl, C4_state_match_posts_code_and_verifier cEx { code := "XYZ", state := "S1" }
    (fun _ => respTokOnly) rfl⟩

/-- C5: for every token-exchange response with status 200 whose JSON body
lacks `access_token`, the exchange fails with the malformed-token-response
error (line 269) and no `Credentials` value is returned. -/
theorem C5_missing_access_token_malformed (c : AuthorizationClient)
    (auth_code : AuthorizationCode) (resp : HttpResponse)
    (hstate : auth_code.state = c.state) (hstatus : resp.status = 200)
    (hbody : resp.body.access_token = none) :
    (requestAccessToken c auth_code (fun _ => resp)).1
      = .error .malformedTokenResponse := by
  unfold requestAccessToken
  rw [if_neg (fun hc => hc hstate.symm)]
  simp [hstatus, credentialsFromResponse, hbody]

/-- C5 witness: a 200 response whose body has `refresh_token` and
`expires_in` but no `access_token`. -/
theorem C5_missing_access_token_malformed_witness :
    ("S1" : String) = "S1" ∧ (200 : Nat) = 200 ∧
    (TokenBody.mk none (some "refresh") (some 3600)).access_token = none ∧
    (requestAccessToken cEx { code := "XYZ", state := "S1" }
        (fun _ => { status := 200,
                    body := TokenBody.mk none (some "refresh") (some 3600) })).1
      = .error .malformedTokenResponse :=
  ⟨rfl, rfl, rfl,
    C5_missing_access_token_malformed cEx { code := "XYZ", state := "S1" }
      { status := 200, body := TokenBody.mk none (some "refresh") (some 3600) }
      rfl rfl rfl⟩

/-- C6: for every credentials argument without a refresh token,
`refresh_access_token` fails with the no-refresh-token error (line 333) and
the POST trace is empty — the refresh POST is issued only when a refresh
token is present. -/
theorem C6_no_refresh_token_no_post (c : AuthorizationClient)
    (credentials : Credentials) (respond : TokenRequest → HttpResponse)
    (h : credentials.refresh_token = none) :
    refreshAccessToken c credentials respond = (.error .noRefreshToken, []) := by
  unfold refreshAccessToken
  rw [h]

/-- C6 witness: concrete credentials with `refresh_token = null`. -/
theorem C6_no_refresh_token_no_post_witness :
    (Credentials.mk "tok" none "dns:///flyte.example.com" none).refresh_token
        = none ∧
    refreshAccessToken cEx
        (Credentials.mk "tok" none "dns:///flyte.example.com" none)
        (fun _ => respTokOnly)
      = (.error .noRefreshToken, []) :=
  ⟨rfl, C6_no_refresh_token_no_post cEx
    (Credentials.mk "tok" none "dns:///flyte.example.com" none)
    (fun _ => respTokOnly) rfl⟩

/-- C2: the claim says two constructions return the identical instance if and
only if their `auth_endpoint` values are equal. But
`_SingletonPerEndpoint.__call__` keys its registry on the FIRST positional
argument (line 158-159), which in `AuthorizationClient.__init__`'s signature
is the `endpoint` parameter, not `auth_endpoint` (the keyword branch and the
error message, lines 160-163, do use `auth_endpoint`). Evaluated here: two
positional constructions sharing `endpoint` but with different
`auth_endpoint` values both return instance 0 — the same instance, not
distinct ones. -/
theorem C2_singleton_keys_on_first_positional_argument :
    (singletonCall registryInit
        ["dns:///flyte.example.com", "https://authA.example.com/authorize",
         "https://authA.example.com/token"] none).2 = .ok 0 ∧
    (singletonCall
        (singletonCall registryInit
          ["dns:///flyte.example.com", "https://authA.example.com/authorize",
           "https://authA.example.com/token"] none).1
        ["dns:///flyte.example.com", "https://authB.example.com/authorize",
         "https://authB.example.com/token"] none).2 = .ok 0 := by
  constructor <;> rfl

/-- C7 counterexample: the claim says that after responding 404 to a
non-path-matching request the listener remains Listening and can still serve
a later path-matching callback in the same flow attempt. But the flow runs
`server.handle_request` (line 316), which serves exactly one inbound request:
after the 404 the listener process exits. Concretely, with redirect path
`/callback`, a stray `/favicon.ico` request followed by the real callback
leaves the handoff queue empty and the real callback unanswered. -/
theorem C7_counterexample_listener_dies_after_404 :
    listenerRun "/callback"
        [{ path := "/favicon.ico", query := [] },
         { path := "/callback", query := [("code", "XYZ"), ("state", "S1")] }]
      = ({ queue := [], closed := false }, [some 404, none]) := by
  rfl

/-- C7 (amended): an inbound request whose path does not match the configured
redirect path is answered 404 and does not consume the single-use result
slot (the handoff queue stays empty and the server is not closed); however,
because the listener serves only one request per flow attempt, it does NOT
remain listening — every later request of the attempt, path-matching or not,
goes unanswered. -/
theorem C7_amended_404_keeps_slot_but_listener_exits (redirectPath : String)
    (r : HttpReq) (rest : List HttpReq)
    (h : stripChars ['/'] r.path ≠ stripChars ['/'] redirectPath) :
    listenerRun redirectPath (r :: rest)
      = ({ queue := [], closed := false },
         some 404 :: rest.map (fun _ => none)) := by
  have hd : doGET redirectPath { queue := [], closed := false } r
      = ({ queue := [], closed := false }, 404) := by
    unfold doGET
    rw [if_neg h]
  simp [listenerRun, hd, serverInit]

/-- C7 witness: the `/favicon.ico` request against redirect path
`/callback`, followed by one more (matching) request. -/
theorem C7_amended_404_keeps_slot_but_listener_exits_witness :
    stripChars ['/'] "/favicon.ico" ≠ stripChars ['/'] "/callback" ∧
    listenerRun "/callback"
        [{ path := "/favicon.ico", query := [] },
         { path := "/callback", query := [("code", "XYZ"), ("state", "S1")] }]
      = ({ queue := [], closed := false }, [some 404, none]) :=
  ⟨by decide,
    C7_amended_404_keeps_slot_but_listener_exits "/callback"
      { path := "/favicon.ico", query := [] }
      [{ path := "/callback", query := [("code", "XYZ"), ("state", "S1")] }]
      (by decide)⟩

/-- C8: within any single flow attempt the listener writes at most once to
the single-slot handoff queue; the server is closed exactly when a callback
was delivered (`handle_authorization_code` queues the code and immediately
runs `server_close`, lines 140-142); and every inbound request after the
first — in particular a second callback arriving after the listener is
closed — is ignored (unanswered). -/
theorem C8_at_most_one_successful_callback (redirectPath : String)
    (reqs : List HttpReq) :
    ((listenerRun redirectPath reqs).1.queue.length ≤ 1) ∧
    ((listenerRun redirectPath reqs).1.closed
      = !(listenerRun redirectPath reqs).1.queue.isEmpty) ∧
    ((listenerRun redirectPath reqs).2.tail
      = reqs.tail.map (fun _ => (none : Option Nat))) := by
  cases reqs with
  | nil => simp [listenerRun, serverInit]
  | cons r rest =>
      simp only [listenerRun]
      by_cases hp : stripChars ['/'] r.path = stripChars ['/'] redirectPath
      · simp only [doGET, if_pos hp]
        cases hc : queryGet r.query "code" with
        | none => simp [serverInit]
        | some code =>
            cases hs : queryGet r.query "state" with
            | none => simp [serverInit]
            | some st => simp [serverInit]
      · simp only [doGET, if_neg hp]
        simp [serverInit]

/-- C9: `_generate_code_verifier` url-safe-base64-encodes its 64 random
bytes and strips the characters outside the verifier class; for EVERY draw of
64 bytes the result has length exactly 86 (the cleaned encoding itself — no
truncation or padding), which lies in [43,128], so the verifier is returned
and the length guard never fires. -/
theorem C9_verifier_length_in_bounds (randomBytes : List Nat)
    (h : randomBytes.length = 64) :
    generateCodeVerifier randomBytes
      = .ok (String.mk ((b64encode randomBytes).filter isVerifierChar)) ∧
    43 ≤ (String.mk ((b64encode randomBytes).filter isVerifierChar)).length ∧
    (String.mk ((b64encode randomBytes).filter isVerifierChar)).length ≤ 128 := by
  have hlen : ((b64encode randomBytes).filter isVerifierChar).length = 86 := by
    rw [b64encode_filter_length, h]
    decide
  have hslen : (String.mk ((b64encode randomBytes).filter isVerifierChar)).length
      = 86 := by
    simpa [String.length] using hlen
  refine ⟨?_, by omega, by omega⟩
  unfold generateCodeVerifier
  dsimp only
  rw [hlen]
  norm_num

/-- C9 witness: the all-zero draw of 64 bytes. -/
theorem C9_verifier_length_in_bounds_witness :
    (List.replicate 64 (0 : Nat)).length = 64 ∧
    (generateCodeVerifier (List.replicate 64 (0 : Nat))
        = .ok (String.mk ((b64encode (List.replicate 64 (0 : Nat))).filter
            isVerifierChar)) ∧
      43 ≤ (String.mk ((b64encode (List.replicate 64 (0 : Nat))).filter
            isVerifierChar)).length ∧
      (String.mk ((b64encode (List.replicate 64 (0 : Nat))).filter
            isVerifierChar)).length ≤ 128) :=
  ⟨by decide, C9_verifier_length_in_bounds (List.replicate 64 0) (by decide)⟩

/-- C10: when the exchange proceeds (callback state matches), the
`self._params.update` of lines 281-287 mutates the per-instance params dict
in place: afterwards the instance's params carry `code` (the callback's
code), `code_verifier` (the stored PKCE verifier) and
`grant_type=authorization_code`; the freshly constructed params dict (lines
224-235) has no `grant_type` entry, so the exchange does NOT leave the
authorization-request parameters unchanged, and an authorization URL built
from the same instance afterwards (`urlencode(self._params)`, line 252)
carries exactly these mutated params as its query. -/
theorem C10_exchange_mutates_params_in_place (c : AuthorizationClient)
    (auth_code : AuthorizationCode) (respond : TokenRequest → HttpResponse)
    (hp : c.params = initParams c.client_id c.scopes c.redirect_uri c.state
      c.code_challenge)
    (hs : auth_code.state = c.state) :
    dictGet (requestAccessToken c auth_code respond).2.2.params "code"
        = some (some auth_code.code) ∧
    dictGet (requestAccessToken c auth_code respond).2.2.params "code_verifier"
        = some (some c.code_verifier) ∧
    dictGet (requestAccessToken c auth_code respond).2.2.params "grant_type"
        = some (some "authorization_code") ∧
    dictGet c.params "grant_type" = none ∧
    (requestAccessToken c auth_code respond).2.2.params ≠ c.params ∧
    (requestAuthorizationCode (requestAccessToken c auth_code respond).2.2).query
        = (requestAccessToken c auth_code respond).2.2.params := by
  obtain ⟨h1, h2, h3⟩ := dictGet_updatedParams c.params auth_code.code
    c.code_verifier
  have hparams : (requestAccessToken c auth_code respond).2.2.params
      = dictUpdate c.params
          [("code", some auth_code.code),
           ("code_verifier", some c.code_verifier),
           ("grant_type", some "authorization_code")] := by
    unfold requestAccessToken
    rw [if_neg (fun hc => hc hs.symm)]
    dsimp only
    split <;> rfl
  have hnone : dictGet c.params "grant_type" = none := by
    rw [hp]
    rfl
  refine ⟨hparams ▸ h1, hparams ▸ h2, hparams ▸ h3, hnone, ?_, rfl⟩
  intro heq
  have h3x := h3
  rw [← hparams, heq, hnone] at h3x
  exact Option.noConfusion h3x

/-- C10 witness: the concrete client (freshly initialized params, state
`"S1"`) and the callback `code=XYZ, state=S1`. -/
theorem C10_exchange_mutates_params_in_place_witness :
    cEx.params = initParams cEx.client_id cEx.scopes cEx.redirect_uri cEx.state
        cEx.code_challenge ∧
    ({ code := "XYZ", state := "S1" } : AuthorizationCode).state = cEx.state ∧
    (dictGet (requestAccessToken cEx { code := "XYZ", state := "S1" }
          (fun _ => respTokOnly)).2.2.params "code" = some (some "XYZ") ∧
      dictGet (requestAccessToken cEx { code := "XYZ", state := "S1" }
          (fun _ => respTokOnly)).2.2.params "code_verifier"
        = some (some cEx.code_verifier) ∧
      dictGet (requestAccessToken cEx { code := "XYZ", state := "S1" }
          (fun _ => respTokOnly)).2.2.params "grant_type"
        = some (some "authorization_code") ∧
      dictGet cEx.params "grant_type" = none ∧
      (requestAccessToken cEx { code := "XYZ", state := "S1" }
          (fun _ => respTokOnly)).2.2.params ≠ cEx.params ∧
      (requestAuthorizationCode (requestAccessToken cEx
          { code := "XYZ", state := "S1" } (fun _ => respTokOnly)).2.2).query
        = (requestAccessToken cEx { code := "XYZ", state := "S1" }
            (fun _ => respTokOnly)).2.2.params) :=
  ⟨rfl, rfl, C10_exchange_mutates_params_in_place cEx
    { code := "XYZ", state := "S1" } (fun _ => respTokOnly) rfl rfl⟩

end FlytekitAuth
